import Mathlib

/-
  Verification of the medical_chat_rag RAG pipeline.

  Shallow embedding of the TypeScript sources:
    src/lib/retrieval.ts, src/lib/chat-memory.ts, src/lib/chat-orchestrator.ts,
    src/lib/pdf-processing.ts, src/app/api/search/route.ts,
    src/app/api/chat/message/route.ts, and the embeddings adapter.

  External collaborators (Supabase store, Gemini embedding and generation
  providers) are modelled as black boxes: their responses are universally
  quantified parameters of the embedded functions.  JavaScript numbers used
  for similarities and thresholds are modelled as rationals; counts are
  modelled as naturals.  JavaScript falsy-default idioms (x or-else d) are
  modelled explicitly so that 0 and the empty string fall back to defaults
  exactly as in the source.
-/

namespace MedicalChatRag

/-- Models the JavaScript idiom `o || d` for an optional count: both a missing
value and the falsy value 0 fall back to the default. -/
def jsOrNat (o : Option Nat) (d : Nat) : Nat :=
  match o with
  | none => d
  | some x => if x = 0 then d else x

/-- Models the JavaScript idiom `o || d` for an optional numeric value: both a
missing value and the falsy value 0 fall back to the default. -/
def jsOrRat (o : Option ℚ) (d : ℚ) : ℚ :=
  match o with
  | none => d
  | some x => if x = 0 then d else x

/-- Models the JavaScript truthiness test on an optional string: `undefined`
and the empty string are falsy. -/
def jsTruthyStr (o : Option String) : Bool :=
  match o with
  | none => false
  | some s => s ≠ ""

-- ============================================
-- Embeddings adapter (src embeddings module, Gemini provider)
-- ============================================

/-- One entry of the provider response: `values` may be absent. -/
structure ContentEmbedding where
  values : Option (List ℚ)
deriving DecidableEq

/-- The provider response of `ai.models.embedContent`: the `embeddings` array
itself may be absent.  A value of this type is only available when the await
succeeded, so the functions below model the post-await computation. -/
structure EmbedContentResponse where
  embeddings : Option (List ContentEmbedding)
deriving DecidableEq

/-- `EMBEDDING_CONFIG.outputDimensionality` (exported as EMBEDDING_DIMENSIONS). -/
def EMBEDDING_DIMENSIONS : Nat := 768

/-- `embedQuery`: returns `response.embeddings?.[0]?.values ?? []`. -/
def embedQuery (response : EmbedContentResponse) : List ℚ :=
  match response.embeddings with
  | none => []
  | some es =>
    match es.head? with
    | none => []
    | some e => e.values.getD []

/-- `embedDocument`: same access path as `embedQuery`, document task type. -/
def embedDocument (response : EmbedContentResponse) : List ℚ :=
  match response.embeddings with
  | none => []
  | some es =>
    match es.head? with
    | none => []
    | some e => e.values.getD []

/-- `embedDocuments`: `response.embeddings?.map(e => e.values ?? []) ?? []`. -/
def embedDocuments (response : EmbedContentResponse) : List (List ℚ) :=
  match response.embeddings with
  | none => []
  | some es => es.map (fun e => e.values.getD [])

/-- Element of `BatchEmbeddingResult.embeddings`; `text` is `texts[index]`,
which is undefined (modelled as `none`) when the provider returned more
entries than there were input texts. -/
structure EmbeddingResult where
  embedding : List ℚ
  text : Option String
deriving DecidableEq

/-- Result type of `embedBatch`. -/
structure BatchEmbeddingResult where
  embeddings : List EmbeddingResult
deriving DecidableEq

/-- `embedBatch`: maps the provider entries positionally onto the input texts,
substituting `[]` for a missing `values` and `[]` for a missing array. -/
def embedBatch (texts : List String) (response : EmbedContentResponse) :
    BatchEmbeddingResult :=
  { embeddings :=
      (response.embeddings.getD []).mapIdx
        (fun index e => { embedding := e.values.getD [], text := texts.get? index }) }

-- ============================================
-- Retrieval engine (src/lib/retrieval.ts)
-- ============================================

/-- `RetrievalConfig` with both fields present (the result of the spread with
the defaults). -/
structure RetrievalConfig where
  topK : Nat
  threshold : ℚ
deriving DecidableEq

/-- `Partial<RetrievalConfig>`: the caller may omit either field. -/
structure RetrievalConfigOpt where
  topK : Option Nat := none
  threshold : Option ℚ := none
deriving DecidableEq

/-- `DEFAULT_RETRIEVAL_CONFIG.topK`. -/
def DEFAULT_TOPK : Nat := 5

/-- `DEFAULT_RETRIEVAL_CONFIG.threshold`. -/
def DEFAULT_THRESHOLD : ℚ := 7/10

/-- A row returned by the `match_documents` RPC. -/
structure MatchDocumentsResult where
  id : String
  content : String
  similarity : ℚ
  metadata : Option String
deriving DecidableEq

/-- `RetrievedChunk` as returned by the retrieval functions. -/
structure RetrievedChunk where
  id : String
  content : String
  similarity : ℚ
  metadata : Option String
deriving DecidableEq

/-- The store as a black box: given the query (after embedding), the
`filter_document_id` and the match parameters, it either fails or returns
rows.  Covers both an `embedQuery` rejection and an RPC error. -/
def VectorStore : Type :=
  String → String → RetrievalConfig → Except String (List MatchDocumentsResult)

/-- `searchDocumentChunks`: spreads the caller config over the defaults
(object spread is presence-based, so a present 0 is kept), queries the store
and maps rows to `RetrievedChunk`s.  A store error is rethrown with the
message prefix used in the source. -/
def searchDocumentChunks (store : VectorStore) (query documentId : String)
    (config : RetrievalConfigOpt) : Except String (List RetrievedChunk) :=
  let topK := config.topK.getD DEFAULT_TOPK
  let threshold := config.threshold.getD DEFAULT_THRESHOLD
  match store query documentId { topK := topK, threshold := threshold } with
  | .error e => .error ("Error buscando en documento: " ++ e)
  | .ok data =>
    .ok (data.map (fun r =>
      { id := r.id, content := r.content, similarity := r.similarity,
        metadata := r.metadata }))

/-- First-pass match count of `hybridSearch`:
`(config.topK || DEFAULT_RETRIEVAL_CONFIG.topK) * 2`. -/
def hybridSearchFirstPassTopK (config : RetrievalConfigOpt) : Nat :=
  jsOrNat config.topK DEFAULT_TOPK * 2

/-- First-pass threshold of `hybridSearch`: `config.threshold || 0.5`. -/
def hybridSearchFirstPassThreshold (config : RetrievalConfigOpt) : ℚ :=
  jsOrRat config.threshold (1/2)

/-- Local refilter threshold of `hybridSearch`:
`config.threshold || DEFAULT_RETRIEVAL_CONFIG.threshold`. -/
def hybridSearchFinalThreshold (config : RetrievalConfigOpt) : ℚ :=
  jsOrRat config.threshold DEFAULT_THRESHOLD

/-- Final result count of `hybridSearch`:
`config.topK || DEFAULT_RETRIEVAL_CONFIG.topK`. -/
def hybridSearchFinalTopK (config : RetrievalConfigOpt) : Nat :=
  jsOrNat config.topK DEFAULT_TOPK

/-- `hybridSearch`: over-fetches with the first-pass parameters, then filters
by `chunk.similarity >= finalThreshold` and takes `slice(0, finalTopK)`. -/
def hybridSearch (store : VectorStore) (query documentId : String)
    (config : RetrievalConfigOpt) : Except String (List RetrievedChunk) :=
  match searchDocumentChunks store query documentId
      { topK := some (hybridSearchFirstPassTopK config),
        threshold := some (hybridSearchFirstPassThreshold config) } with
  | .error e => .error e
  | .ok results =>
    .ok ((results.filter
        (fun chunk => hybridSearchFinalThreshold config ≤ chunk.similarity)).take
      (hybridSearchFinalTopK config))

-- ============================================
-- Claims C2, C3, C4
-- ============================================

/-- Claim C2, counterexample: on a provider response with no embeddings at
all, `embedQuery` silently returns the empty vector (length 0, not the
configured 768) instead of raising an error, and `embedBatch` substitutes the
empty vector for an entry whose `values` are missing.  This falsifies the
claim that the adapter fails loudly and never returns an empty vector in
place of a missing or wrong-length provider result. -/
theorem embedQuery_missing_embeddings_returns_empty :
    embedQuery { embeddings := none } = [] ∧
    (embedQuery { embeddings := none }).length ≠ EMBEDDING_DIMENSIONS ∧
    embedBatch ["a"] { embeddings := some [{ values := none }] } =
      { embeddings := [{ embedding := [], text := some "a" }] } := by
  refine ⟨rfl, by decide, rfl⟩

/-- Claim C2, amended: the adapter performs no dimensionality validation at
all.  Any vector present in the provider response is returned exactly as
provided, whatever its length (so it is never truncated or padded), and when
the response omits the embeddings array or an entry omits its values, the
adapter silently substitutes the empty vector instead of raising an error.
(The functions model the computation after a successful provider await;
provider rejections themselves do propagate, as there is no catch.) -/
theorem embeddings_adapter_no_dimension_check :
    (∀ (v : List ℚ) (rest : List ContentEmbedding),
      embedQuery { embeddings := some ({ values := some v } :: rest) } = v) ∧
    embedQuery { embeddings := none } = [] ∧
    embedQuery { embeddings := some [] } = [] ∧
    (∀ rest : List ContentEmbedding,
      embedQuery { embeddings := some ({ values := none } :: rest) } = []) ∧
    (∀ (texts : List String) (es : List ContentEmbedding),
      (embedBatch texts { embeddings := some es }).embeddings.map
          (fun r => r.embedding) =
        es.map (fun e => e.values.getD [])) ∧
    (∀ texts : List String, embedBatch texts { embeddings := none } = { embeddings := [] }) := by
  refine ⟨fun v rest => rfl, rfl, rfl, fun rest => rfl, fun texts es => ?_, fun texts => rfl⟩
  simp only [embedBatch, Option.getD_some, List.mapIdx_eq_enum_map, List.map_map]
  have : ((fun r => r.embedding) ∘ Function.uncurry fun index e =>
      ({ embedding := e.values.getD [], text := texts.get? index } : EmbeddingResult)) =
      (fun e : ContentEmbedding => e.values.getD []) ∘ Prod.snd := rfl
  rw [this, ← List.map_map, List.enum_map_snd]

/-- Claim C3, counterexample: a caller configuration requesting `topK = 0` is
treated as absent by the falsy-default `config.topK || 5`, so `hybridSearch`
returns 1 result where the claim demands at most 0. -/
theorem hybridSearch_topK_zero_exceeds_request :
    ∃ out, hybridSearch
        (fun _ _ _ => .ok [{ id := "c1", content := "x", similarity := 9/10, metadata := none }])
        "q" "doc1" { topK := some 0, threshold := none } = .ok out ∧
      out.length = 1 ∧ ¬ out.length ≤ 0 := by
  refine ⟨[{ id := "c1", content := "x", similarity := 9/10, metadata := none }], ?_, rfl, by simp⟩
  simp only [hybridSearch, searchDocumentChunks, hybridSearchFinalThreshold,
    hybridSearchFinalTopK, jsOrNat, jsOrRat, DEFAULT_THRESHOLD, List.map]
  norm_num [List.filter, List.take]

/-- Claim C3, amended: for every store behaviour, query, documentId and
caller configuration, `hybridSearch` returns at most the caller's requested
`topK` provided that requested value is nonzero (a requested `topK` of 0 is
falsy and falls back to the default 5, which bounds the result instead), and
every returned chunk has similarity greater than or equal to the caller's
requested threshold, even though the internal first pass uses a looser
threshold. -/
theorem hybridSearch_respects_caller_config (store : VectorStore)
    (query documentId : String) (config : RetrievalConfigOpt)
    (out : List RetrievedChunk)
    (h : hybridSearch store query documentId config = .ok out) :
    out.length ≤ hybridSearchFinalTopK config ∧
    (∀ k, config.topK = some k → k ≠ 0 → out.length ≤ k) ∧
    (∀ t, config.threshold = some t → ∀ c ∈ out, t ≤ c.similarity) := by
  unfold hybridSearch at h
  cases hs : searchDocumentChunks store query documentId
      { topK := some (hybridSearchFirstPassTopK config),
        threshold := some (hybridSearchFirstPassThreshold config) } with
  | error e => rw [hs] at h; exact absurd h (by simp)
  | ok results =>
    rw [hs] at h
    simp only [Except.ok.injEq] at h
    subst h
    refine ⟨?_, ?_, ?_⟩
    · exact (List.length_take _ _).trans_le (min_le_left _ _)
    · intro k hk hk0
      have : hybridSearchFinalTopK config = k := by
        simp [hybridSearchFinalTopK, jsOrNat, hk, hk0]
      calc (List.take (hybridSearchFinalTopK config) _).length
          ≤ hybridSearchFinalTopK config :=
            (List.length_take _ _).trans_le (min_le_left _ _)
        _ = k := this
    · intro t ht c hc
      have hc' := List.mem_of_mem_take hc
      have hsim := (List.mem_filter.mp hc').2
      have hsim' : hybridSearchFinalThreshold config ≤ c.similarity := by
        simpa using hsim
      by_cases h0 : t = 0
      · subst h0
        have : (0 : ℚ) ≤ hybridSearchFinalThreshold config := by
          simp only [hybridSearchFinalThreshold, jsOrRat, ht, DEFAULT_THRESHOLD, if_pos rfl]
          norm_num
        exact this.trans hsim'
      · have : hybridSearchFinalThreshold config = t := by
          simp [hybridSearchFinalThreshold, jsOrRat, ht, h0]
        exact this ▸ hsim'

/-- Witness for `hybridSearch_respects_caller_config` at a concrete store and
configuration. -/
theorem hybridSearch_respects_caller_config_holds :
    ∃ out, hybridSearch
        (fun _ _ _ => .ok
          [{ id := "c1", content := "x", similarity := 9/10, metadata := none },
           { id := "c2", content := "y", similarity := 3/10, metadata := none }])
        "q" "doc1" { topK := some 1, threshold := some (7/10) } = .ok out ∧
      (out.length ≤ hybridSearchFinalTopK { topK := some 1, threshold := some (7/10) } ∧
       (∀ k, ({ topK := some 1, threshold := some (7/10) } : RetrievalConfigOpt).topK = some k →
          k ≠ 0 → out.length ≤ k) ∧
       (∀ t, ({ topK := some 1, threshold := some (7/10) } : RetrievalConfigOpt).threshold = some t →
          ∀ c ∈ out, t ≤ c.similarity)) := by
  have hEq : hybridSearch
      (fun _ _ _ => .ok
        [{ id := "c1", content := "x", similarity := 9/10, metadata := none },
         { id := "c2", content := "y", similarity := 3/10, metadata := none }])
      "q" "doc1" { topK := some 1, threshold := some (7/10) } =
      .ok [{ id := "c1", content := "x", similarity := 9/10, metadata := none }] := by
    simp only [hybridSearch, searchDocumentChunks, hybridSearchFinalThreshold,
      hybridSearchFinalTopK, jsOrNat, jsOrRat, DEFAULT_THRESHOLD, List.map]
    norm_num [List.filter, List.take]
  exact ⟨_, hEq, hybridSearch_respects_caller_config _ "q" "doc1" _ _ hEq⟩

/-- Claim C4, counterexample: when the caller supplies a threshold (here 0.6,
the value the chat orchestrator uses), the first pass of `hybridSearch` runs
with that very threshold, not with one lower than the caller's effective
threshold: `config.threshold || 0.5` only lowers the threshold when the
caller omitted it. -/
theorem hybridSearch_first_pass_not_lowered :
    hybridSearchFirstPassThreshold { topK := none, threshold := some (6/10) } = 6/10 ∧
    hybridSearchFinalThreshold { topK := none, threshold := some (6/10) } = 6/10 ∧
    ¬ hybridSearchFirstPassThreshold { topK := none, threshold := some (6/10) } <
        hybridSearchFinalThreshold { topK := none, threshold := some (6/10) } := by
  refine ⟨?_, ?_, ?_⟩ <;>
    norm_num [hybridSearchFirstPassThreshold, hybridSearchFinalThreshold, jsOrRat]

/-- Claim C4, amended: the first pass of `hybridSearch` always doubles the
caller's effective `topK`; its threshold is lowered to 0.5 (below the
effective default 0.7) only when the caller supplies no threshold (or the
falsy 0) — when the caller supplies a nonzero threshold the first pass uses
that same threshold, not a lower one.  The candidates are then re-filtered
locally against the caller's effective threshold and truncated to the
caller's effective `topK`. -/
theorem hybridSearch_two_pass_structure (config : RetrievalConfigOpt) :
    hybridSearchFirstPassTopK config = hybridSearchFinalTopK config * 2 ∧
    (config.threshold = none ∨ config.threshold = some 0 →
      hybridSearchFirstPassThreshold config = 1/2 ∧
      hybridSearchFirstPassThreshold config < hybridSearchFinalThreshold config) ∧
    (∀ t, config.threshold = some t → t ≠ 0 →
      hybridSearchFirstPassThreshold config = t) ∧
    (∀ (store : VectorStore) (query documentId : String) (out : List RetrievedChunk),
      hybridSearch store query documentId config = .ok out →
      ∃ candidates, searchDocumentChunks store query documentId
          { topK := some (hybridSearchFirstPassTopK config),
            threshold := some (hybridSearchFirstPassThreshold config) } = .ok candidates ∧
        out = (candidates.filter
            (fun chunk => hybridSearchFinalThreshold config ≤ chunk.similarity)).take
          (hybridSearchFinalTopK config)) := by
  refine ⟨rfl, ?_, ?_, ?_⟩
  · rintro (h | h) <;>
      simp [hybridSearchFirstPassThreshold, hybridSearchFinalThreshold, jsOrRat, h,
        DEFAULT_THRESHOLD] <;> norm_num
  · intro t ht ht0
    simp [hybridSearchFirstPassThreshold, jsOrRat, ht, ht0]
  · intro store query documentId out h
    unfold hybridSearch at h
    cases hs : searchDocumentChunks store query documentId
        { topK := some (hybridSearchFirstPassTopK config),
          threshold := some (hybridSearchFirstPassThreshold config) } with
    | error e => rw [hs] at h; exact absurd h (by simp)
    | ok results =>
      rw [hs] at h
      simp only [Except.ok.injEq] at h
      exact ⟨results, rfl, h.symm⟩

/-- Witness for `hybridSearch_two_pass_structure` at a concrete
configuration, store and output. -/
theorem hybridSearch_two_pass_structure_holds :
    hybridSearchFirstPassTopK { topK := none, threshold := none } =
        hybridSearchFinalTopK { topK := none, threshold := none } * 2 ∧
      hybridSearchFirstPassThreshold { topK := none, threshold := none } = 1/2 ∧
      hybridSearchFirstPassThreshold { topK := none, threshold := none } <
        hybridSearchFinalThreshold { topK := none, threshold := none } := by
  have h := hybridSearch_two_pass_structure { topK := none, threshold := none }
  exact ⟨h.1, (h.2.1 (Or.inl rfl)).1, (h.2.1 (Or.inl rfl)).2⟩

-- ============================================
-- Conversation memory (src/lib/chat-memory.ts)
-- ============================================

/-- Message roles: the union type `"user" | "assistant" | "system"`. -/
inductive Role where
  | user
  | assistant
  | system
deriving DecidableEq

/-- A row of `chat_messages` as read back from the store. -/
structure ChatMessageRec where
  id : String
  sessionId : String
  role : Role
  content : String
  metadata : Option String
  createdAt : String
deriving DecidableEq

/-- A JavaScript exception value: the catch blocks test `error instanceof
Error` before reading `error.message`. -/
structure JsError where
  isError : Bool
  message : String
deriving DecidableEq

/-- Outcome of one awaited Supabase primitive: a data row, a returned
`error` object, or a rejected promise (a thrown exception). -/
inductive DbOutcome (α : Type) where
  | ok (a : α)
  | dbError (message : String)
  | exn (e : JsError)

/-- Whether the store primitive returned data. -/
def DbOutcome.isOk {α : Type} : DbOutcome α → Bool
  | .ok _ => true
  | _ => false

/-- The expression used in every catch block:
`error instanceof Error ? error.message : "Error desconocido"`. -/
def jsErrorMessage (e : JsError) : String :=
  if e.isError then e.message else "Error desconocido"

/-- A try/catch around a body that may throw: the handler turns any thrown
exception into a normal return value, so the combined computation always
returns. -/
def tryCatch {α : Type} (body : Except JsError α) (handler : JsError → α) :
    Except JsError α :=
  match body with
  | .ok a => .ok a
  | .error e => .ok (handler e)

/-- Result type of `createChatSession`. -/
structure CreateSessionResult where
  success : Bool
  sessionId : Option String := none
  error : Option String := none
deriving DecidableEq

/-- Result type of `saveChatMessage`. -/
structure SaveMessageResult where
  success : Bool
  messageId : Option String := none
  error : Option String := none
deriving DecidableEq

/-- `createChatSession`: inserts a `chat_sessions` row and returns the new id;
a store error becomes `success: false` with a prefixed message, and any thrown
exception is caught and becomes `success: false` as well. -/
def createChatSession (documentId userId title : Option String)
    (insertOutcome : DbOutcome String) : Except JsError CreateSessionResult :=
  tryCatch
    (match insertOutcome with
      | .exn e => .error e
      | .dbError m =>
        .ok { success := false, error := some ("Error al crear sesión: " ++ m) }
      | .ok id => .ok { success := true, sessionId := some id })
    (fun e => { success := false, error := some (jsErrorMessage e) })

/-- `saveChatMessage`: inserts a `chat_messages` row; failures are reported in
the result object, never thrown. -/
def saveChatMessage (sessionId : String) (role : Role) (content : String)
    (metadata : Option String) (insertOutcome : DbOutcome String) :
    Except JsError SaveMessageResult :=
  tryCatch
    (match insertOutcome with
      | .exn e => .error e
      | .dbError m =>
        .ok { success := false, error := some ("Error al guardar mensaje: " ++ m) }
      | .ok id => .ok { success := true, messageId := some id })
    (fun e => { success := false, error := some (jsErrorMessage e) })

/-- `getChatHistory`: selects the session messages ordered by `created_at`
ascending, capped at `limit` by the store; a store error or a thrown
exception yields the empty list. -/
def getChatHistory (sessionId : String) (limit : Nat)
    (selectOutcome : DbOutcome (List ChatMessageRec)) :
    Except JsError (List ChatMessageRec) :=
  tryCatch
    (match selectOutcome with
      | .exn e => .error e
      | .dbError _ => .ok []
      | .ok msgs => .ok msgs)
    (fun _ => [])

/-- `deleteChatSession`: deletes the session row (messages cascade in the
store); a store error or a thrown exception yields `false`. -/
def deleteChatSession (sessionId : String) (deleteOutcome : DbOutcome Unit) :
    Except JsError Bool :=
  tryCatch
    (match deleteOutcome with
      | .exn e => .error e
      | .dbError _ => .ok false
      | .ok _ => .ok true)
    (fun _ => false)

/-- The role label of `formatChatHistory`:
`role === "user" ? "Usuario" : role === "assistant" ? "Asistente" : "Sistema"`. -/
def roleLabel (r : Role) : String :=
  match r with
  | .user => "Usuario"
  | .assistant => "Asistente"
  | .system => "Sistema"

/-- `formatChatHistory` from chat-memory (the one the orchestrator imports):
returns the empty string for an empty list, otherwise the labelled messages
joined by blank lines. -/
def formatChatHistory (messages : List ChatMessageRec) : String :=
  if messages.length = 0 then ""
  else
    String.intercalate "\n\n"
      (messages.map (fun msg => roleLabel msg.role ++ ": " ++ msg.content))

/-- Rendering of one message as the spec words it:
a `RoleLabel: content` line. -/
def specRenderMessage (msg : ChatMessageRec) : String :=
  roleLabel msg.role ++ ": " ++ msg.content

/-- Joining by blank lines as the spec words it, written as direct recursion
to compare against the join of the source. -/
def specJoinByBlankLines : List String → String
  | [] => ""
  | [s] => s
  | s :: rest => s ++ "\n\n" ++ specJoinByBlankLines rest

-- ============================================
-- Claims C6, C10
-- ============================================

/-- Claim C6, counterexample: `formatChatHistory` applied to the empty
message list returns the empty string, not an explicit no-prior-history
marker.  (A different, same-named helper in the response-generation module
does return a marker, but the orchestrator imports this one.) -/
theorem formatChatHistory_empty_is_empty_string :
    formatChatHistory [] = "" := rfl

/-- Claim C6, amended: `formatChatHistory` renders every message as
`RoleLabel: content` with the localized labels Usuario, Asistente and
Sistema, joined by blank lines, and for the empty message list it returns the
empty string (there is no no-prior-history marker). -/
theorem formatChatHistory_renders_messages (messages : List ChatMessageRec) :
    formatChatHistory messages =
      specJoinByBlankLines (messages.map specRenderMessage) ∧
    formatChatHistory [] = "" := by
  constructor
  · have go_eq : ∀ (rest : List String) (acc : String),
        String.intercalate.go acc "\n\n" rest = specJoinByBlankLines (acc :: rest) := by
      intro rest
      induction rest with
      | nil => intro acc; rfl
      | cons a rest ih =>
        intro acc
        rw [String.intercalate.go, ih]
        cases rest with
        | nil => simp [specJoinByBlankLines, String.append_assoc]
        | cons b bs => simp [specJoinByBlankLines, String.append_assoc]
    cases messages with
    | nil => rfl
    | cons m rest =>
      simp only [formatChatHistory, List.length_cons, Nat.succ_ne_zero, if_neg,
        not_false_iff, List.map_cons, String.intercalate]
      rw [go_eq]
      rfl
  · rfl

/-- Claim C10: no conversation-memory operation ever raises to its caller.
For every input and every store outcome — data, a returned store error, or a
thrown exception — `createChatSession` and `saveChatMessage` return a result
object (with `success = false` and an error message when the store did not
return data), `getChatHistory` returns a list (the empty list unless the
store returned data), and `deleteChatSession` returns a boolean (false
unless the delete succeeded). -/
theorem chatMemory_never_throws
    (documentId userId title : Option String)
    (sessionId content : String) (role : Role) (metadata : Option String)
    (limit : Nat)
    (o₁ o₂ : DbOutcome String) (o₃ : DbOutcome (List ChatMessageRec))
    (o₄ : DbOutcome Unit) :
    (∃ r, createChatSession documentId userId title o₁ = .ok r ∧
        (o₁.isOk = false → r.success = false ∧ r.error.isSome = true)) ∧
    (∃ r, saveChatMessage sessionId role content metadata o₂ = .ok r ∧
        (o₂.isOk = false → r.success = false ∧ r.error.isSome = true)) ∧
    (∃ msgs, getChatHistory sessionId limit o₃ = .ok msgs ∧
        (o₃.isOk = false → msgs = []) ∧ (∀ l, o₃ = .ok l → msgs = l)) ∧
    (∃ b, deleteChatSession sessionId o₄ = .ok b ∧
        (o₄.isOk = false → b = false) ∧ (o₄.isOk = true → b = true)) := by
  refine ⟨?_, ?_, ?_, ?_⟩
  · cases o₁ <;> simp [createChatSession, tryCatch, DbOutcome.isOk]
  · cases o₂ <;> simp [saveChatMessage, tryCatch, DbOutcome.isOk]
  · cases o₃ <;> simp [getChatHistory, tryCatch, DbOutcome.isOk]
  · cases o₄ <;> simp [deleteChatSession, tryCatch, DbOutcome.isOk]

/-- Witness for `chatMemory_never_throws` at concrete inputs, including a
store error for the session insert and a thrown exception for the message
insert. -/
theorem chatMemory_never_throws_holds :
    (∃ r, createChatSession (some "doc1") none none (.dbError "down") = .ok r ∧
        ((DbOutcome.dbError (α := String) "down").isOk = false →
          r.success = false ∧ r.error.isSome = true)) ∧
    (∃ r, saveChatMessage "s1" .user "hola" none (.exn ⟨true, "boom"⟩) = .ok r ∧
        ((DbOutcome.exn (α := String) ⟨true, "boom"⟩).isOk = false →
          r.success = false ∧ r.error.isSome = true)) ∧
    (∃ msgs, getChatHistory "s1" 50 (.exn ⟨false, "x"⟩) = .ok msgs ∧
        ((DbOutcome.exn (α := List ChatMessageRec) ⟨false, "x"⟩).isOk = false →
          msgs = []) ∧
        (∀ l, (DbOutcome.exn (α := List ChatMessageRec) ⟨false, "x"⟩) = .ok l → msgs = l)) ∧
    (∃ b, deleteChatSession "s1" (.dbError "gone") = .ok b ∧
        ((DbOutcome.dbError (α := Unit) "gone").isOk = false → b = false) ∧
        ((DbOutcome.dbError (α := Unit) "gone").isOk = true → b = true)) :=
  chatMemory_never_throws (some "doc1") none none "s1" "hola" .user none 50
    (.dbError "down") (.exn ⟨true, "boom"⟩) (.exn ⟨false, "x"⟩) (.dbError "gone")

/-- Witness for `formatChatHistory_renders_messages` at a concrete
nonempty history. -/
theorem formatChatHistory_renders_messages_holds :
    formatChatHistory
        [{ id := "m1", sessionId := "s1", role := .user, content := "hola",
           metadata := none, createdAt := "t1" },
         { id := "m2", sessionId := "s1", role := .assistant, content := "buenas",
           metadata := none, createdAt := "t2" }] =
      specJoinByBlankLines
        (List.map specRenderMessage
          [{ id := "m1", sessionId := "s1", role := .user, content := "hola",
             metadata := none, createdAt := "t1" },
           { id := "m2", sessionId := "s1", role := .assistant, content := "buenas",
             metadata := none, createdAt := "t2" }]) :=
  (formatChatHistory_renders_messages _).1

-- ============================================
-- Retrieval query surface (src/app/api/search/route.ts, POST)
-- ============================================

/-- The parsed request body of POST /api/search.  `query := none` models a
missing or non-string `query` field (the route tests
`!body.query || typeof body.query !== "string"`; the empty string is falsy
and takes the same branch). -/
structure SearchRequest where
  query : Option String := none
  documentId : Option String := none
  topK : Option ℚ := none
  threshold : Option ℚ := none
  format : Option String := none

/-- Observable outcome of the validation-and-configuration prefix of the
route: either a 400 validation error (returned before any search), or the
search invocation with the effective configuration. -/
inductive SearchRouteStep where
  | badRequest (message : String)
  | search (query : String) (documentId : Option String) (topK threshold : ℚ)
deriving DecidableEq

/-- The whitespace class trimmed by JavaScript trim and matched by the
regex class backslash-s (restricted to the ASCII range; the sources only
ever produce ASCII whitespace). -/
def isJsWS (c : Char) : Bool :=
  c == ' ' || c == '\t' || c == '\n' || c == '\r' || c == '\x0b' || c == '\x0c'

/-- Strips leading and trailing whitespace from a character list. -/
def trimCharList (l : List Char) : List Char :=
  ((l.dropWhile isJsWS).reverse.dropWhile isJsWS).reverse

/-- Models String.prototype.trim. -/
def jsTrim (s : String) : String := ⟨trimCharList s.data⟩

/-- The validation and configuration logic of POST /api/search: rejects a
missing query and a trimmed query shorter than 3 characters with the exact
messages of the source, then clamps `topK` with `Math.min(body.topK || 5, 20)`
and `threshold` with `Math.max(0, Math.min(body.threshold || 0.7, 1))` and
runs the search (per-document when `documentId` is present). -/
def searchRoutePOST (body : SearchRequest) : SearchRouteStep :=
  match body.query with
  | none => .badRequest "Se requiere una consulta (query)"
  | some q =>
    if q = "" then .badRequest "Se requiere una consulta (query)"
    else
      if (jsTrim q).length < 3 then
        .badRequest "La consulta debe tener al menos 3 caracteres"
      else
        .search (jsTrim q) body.documentId
          (min (jsOrRat body.topK 5) 20)
          (max 0 (min (jsOrRat body.threshold (7/10)) 1))

-- ============================================
-- Claim C7
-- ============================================

/-- Claim C7: the retrieval query surface rejects every request whose query,
after trimming, is shorter than 3 characters with a descriptive synchronous
validation error and performs no search; and for every accepted request the
effective `topK` is at most 20 and the effective threshold lies in [0, 1]. -/
theorem searchRoute_validates_and_clamps (body : SearchRequest) :
    (∀ q, body.query = some q → (jsTrim q).length < 3 →
      ∃ msg, searchRoutePOST body = .badRequest msg) ∧
    (∀ query documentId topK threshold,
      searchRoutePOST body = .search query documentId topK threshold →
      topK ≤ 20 ∧ 0 ≤ threshold ∧ threshold ≤ 1) := by
  constructor
  · intro q hq hshort
    rw [searchRoutePOST, hq]
    by_cases hempty : q = ""
    · exact ⟨"Se requiere una consulta (query)", by simp [hempty]⟩
    · exact ⟨"La consulta debe tener al menos 3 caracteres", by simp [hempty, hshort]⟩
  · intro query documentId topK threshold h
    unfold searchRoutePOST at h
    split at h
    · exact absurd h (by simp)
    · split at h
      · exact absurd h (by simp)
      · split at h
        · exact absurd h (by simp)
        · have hinj := SearchRouteStep.search.inj h
          refine ⟨?_, ?_, ?_⟩
          · rw [← hinj.2.2.1]; exact min_le_right _ _
          · rw [← hinj.2.2.2]; exact le_max_left _ _
          · rw [← hinj.2.2.2]
            exact max_le (by norm_num) (min_le_right _ _)

/-- Witness for `searchRoute_validates_and_clamps`: a two-character query is
rejected, and an accepted request with an out-of-range configuration is
clamped into bounds. -/
theorem searchRoute_validates_and_clamps_holds :
    (∃ msg, searchRoutePOST { query := some " ab " } = .badRequest msg) ∧
    (∀ query documentId topK threshold,
      searchRoutePOST { query := some "diagnosis", topK := some 100, threshold := some 2 } =
        .search query documentId topK threshold →
      topK ≤ 20 ∧ 0 ≤ threshold ∧ threshold ≤ 1) :=
  ⟨(searchRoute_validates_and_clamps { query := some " ab " }).1 " ab " rfl
      (by simp [jsTrim]; decide),
   (searchRoute_validates_and_clamps _).2⟩

-- ============================================
-- Chunker (src/lib/pdf-processing.ts)
-- ============================================

/-- `ChunkingConfig`: maximum chunk size and overlap, in characters. -/
structure ChunkingConfig where
  chunkSize : Nat
  chunkOverlap : Nat
deriving DecidableEq

/-- `MEDICAL_CHUNK_CONFIG`. -/
def MEDICAL_CHUNK_CONFIG : ChunkingConfig := { chunkSize := 1200, chunkOverlap := 250 }

/-- The class `[ \t]` of the horizontal-whitespace collapsing regex. -/
def isHorizWS (c : Char) : Bool := c == ' ' || c == '\t'

/-- `replace(/\r\n/g, "\n")`: left-to-right, non-overlapping. -/
def replaceCRLF : List Char → List Char
  | [] => []
  | '\r' :: '\n' :: rest => '\n' :: replaceCRLF rest
  | c :: rest => c :: replaceCRLF rest

/-- `replace(/[ \t]+/g, " ")`: every maximal run of spaces and tabs becomes a
single space.  The flag records whether the previous character was part of a
run. -/
def collapseSpacesAux (prevWS : Bool) : List Char → List Char
  | [] => []
  | c :: rest =>
    if isHorizWS c then
      if prevWS then collapseSpacesAux true rest
      else ' ' :: collapseSpacesAux true rest
    else c :: collapseSpacesAux false rest

/-- `replace(/[ \t]+/g, " ")`. -/
def collapseSpaces (l : List Char) : List Char := collapseSpacesAux false l

/-- `replace(/\n{3,}/g, "\n\n")`: of every maximal newline run only the first
two newlines are kept; runs of one or two are unchanged. -/
def collapseNewlinesAux (seen : Nat) : List Char → List Char
  | [] => []
  | c :: rest =>
    if c == '\n' then
      if seen < 2 then '\n' :: collapseNewlinesAux (seen + 1) rest
      else collapseNewlinesAux seen rest
    else c :: collapseNewlinesAux 0 rest

/-- `replace(/\n{3,}/g, "\n\n")`. -/
def collapseNewlines (l : List Char) : List Char := collapseNewlinesAux 0 l

/-- The class `[\x00-\x08\x0B\x0C\x0E-\x1F\x7F]` of stripped control
characters. -/
def isControlStripped (c : Char) : Bool :=
  decide (c.toNat ≤ 8) || c.toNat == 11 || c.toNat == 12 ||
    (decide (14 ≤ c.toNat) && decide (c.toNat ≤ 31)) || c.toNat == 127

/-- `replace(/[\x00-\x08\x0B\x0C\x0E-\x1F\x7F]/g, "")`. -/
def stripControl (l : List Char) : List Char :=
  l.filter (fun c => !(isControlStripped c))

/-- `split("\n")`: splits at every occurrence of the separator; adjacent
separators produce empty fields. -/
def splitOnChar (sep : Char) : List Char → List (List Char)
  | [] => [[]]
  | c :: rest =>
    if c == sep then [] :: splitOnChar sep rest
    else
      match splitOnChar sep rest with
      | [] => [[c]]
      | l :: ls => (c :: l) :: ls

/-- `cleanText`: the normalization pipeline of pdf-processing, in source
order — unify line endings, collapse horizontal whitespace, collapse blank
lines, strip control characters, trim each line, rejoin, trim. -/
def cleanText (text : List Char) : List Char :=
  trimCharList
    (List.intercalate ['\n']
      ((splitOnChar '\n'
          (stripControl (collapseNewlines (collapseSpaces (replaceCRLF text))))).map
        trimCharList))

/-- `split(/\n\n+/)`: fields are separated by maximal runs of at least two
newlines.  `cur` is the field being built and `pending` counts buffered
newlines: a run of one newline stays in the field, a run of two or more is a
separator. -/
def splitParagraphsAux : List Char → List Char → Nat → List (List Char)
  | [], cur, pending =>
    if 2 ≤ pending then [cur, []]
    else [cur ++ List.replicate pending '\n']
  | c :: rest, cur, pending =>
    if c == '\n' then splitParagraphsAux rest cur (pending + 1)
    else
      if 2 ≤ pending then cur :: splitParagraphsAux rest [c] 0
      else splitParagraphsAux rest (cur ++ List.replicate pending '\n' ++ [c]) 0

/-- `cleanedText.split(/\n\n+/)`. -/
def splitParagraphs (l : List Char) : List (List Char) := splitParagraphsAux l [] 0

/-- `split(/\s+/)`: fields are separated by maximal whitespace runs; a
leading or trailing run produces an empty field.  The flag records an
unresolved pending separator. -/
def splitOnWhitespaceRunsAux : List Char → List Char → Bool → List (List Char)
  | [], cur, pending => if pending then [cur, []] else [cur]
  | c :: rest, cur, pending =>
    if isJsWS c then splitOnWhitespaceRunsAux rest cur true
    else
      if pending then cur :: splitOnWhitespaceRunsAux rest [c] false
      else splitOnWhitespaceRunsAux rest (cur ++ [c]) false

/-- `currentChunk.split(/\s+/)`. -/
def splitOnWhitespaceRuns (l : List Char) : List (List Char) :=
  splitOnWhitespaceRunsAux l [] false

/-- The class `[.!?]` of sentence terminators. -/
def isSentEnd (c : Char) : Bool := c == '.' || c == '!' || c == '?'

/-- Scanner for `match(/[^.!?]+[.!?]+/g)`: `a` is the current run of
non-terminators, `t` the current run of terminators following it; a
terminator with no preceding non-terminator is skipped, and a trailing
non-terminator run without a terminator is not a match. -/
def sentenceScanAux : List Char → List Char → List Char → List (List Char)
  | [], a, t => if !a.isEmpty && !t.isEmpty then [a ++ t] else []
  | c :: rest, a, t =>
    if isSentEnd c then
      if a.isEmpty then sentenceScanAux rest [] []
      else sentenceScanAux rest a (t ++ [c])
    else
      if !t.isEmpty then (a ++ t) :: sentenceScanAux rest [c] []
      else sentenceScanAux rest (a ++ [c]) []

/-- `trimmedParagraph.match(/[^.!?]+[.!?]+/g) || [trimmedParagraph]`: a null
match result falls back to the whole paragraph. -/
def matchSentencesOrSelf (l : List Char) : List (List Char) :=
  match sentenceScanAux l [] [] with
  | [] => [l]
  | ms => ms

/-- `words.slice(-n)`: the last `n` elements — except that `slice(-0)` is
`slice(0)`, the whole array (this happens exactly when `chunkOverlap = 0`). -/
def jsSliceLast {α : Type} (l : List α) (n : Nat) : List α :=
  if n = 0 then l else l.drop (l.length - n)

/-- The inner sentence loop of `splitIntoChunks`: accumulates sentences into
the buffer, emitting the trimmed buffer whenever appending (with a space
separator) would exceed `chunkSize`. -/
def accumulateSentences (chunkSize : Nat) :
    List (List Char) → List (List Char) → List Char → List (List Char) × List Char
  | [], chunks, current => (chunks, current)
  | s :: rest, chunks, current =>
    if chunkSize < (current ++ [' '] ++ s).length then
      if !current.isEmpty then
        accumulateSentences chunkSize rest (chunks ++ [trimCharList current]) s
      else
        accumulateSentences chunkSize rest chunks s
    else
      accumulateSentences chunkSize rest chunks
        (current ++ (if current.isEmpty then [] else [' ']) ++ s)

/-- The paragraph loop of `splitIntoChunks`: skips blank paragraphs,
accumulates paragraphs into the buffer with a blank-line separator, and on
overflow either emits the buffer and seeds the next one with the word
overlap, or (for an oversized paragraph with an empty buffer) falls back to
sentence accumulation. -/
def accumulateParagraphs (config : ChunkingConfig) :
    List (List Char) → List (List Char) → List Char → List (List Char) × List Char
  | [], chunks, current => (chunks, current)
  | p :: rest, chunks, current =>
    let tp := trimCharList p
    if tp.isEmpty then accumulateParagraphs config rest chunks current
    else if config.chunkSize < (current ++ ['\n', '\n'] ++ tp).length then
      if !current.isEmpty then
        let words := splitOnWhitespaceRuns current
        let overlapWords := (config.chunkOverlap + 4) / 5
        let overlap := List.intercalate [' '] (jsSliceLast words overlapWords)
        accumulateParagraphs config rest (chunks ++ [trimCharList current])
          (overlap ++ ['\n', '\n'] ++ tp)
      else
        let result := accumulateSentences config.chunkSize (matchSentencesOrSelf tp) chunks []
        accumulateParagraphs config rest result.1 result.2
    else
      accumulateParagraphs config rest chunks
        (current ++ (if current.isEmpty then [] else ['\n', '\n']) ++ tp)

/-- `splitIntoChunks`: clean, split into paragraphs, accumulate, append the
final nonempty buffer, and discard chunks shorter than 50 characters. -/
def splitIntoChunks (text : List Char) (config : ChunkingConfig) : List (List Char) :=
  let cleaned := cleanText text
  let paragraphs := splitParagraphs cleaned
  let result := accumulateParagraphs config paragraphs [] []
  let chunks :=
    if (trimCharList result.2).isEmpty then result.1
    else result.1 ++ [trimCharList result.2]
  chunks.filter (fun chunk => 50 ≤ chunk.length)

/-- `estimatePageNumber`: proportional interpolation
`Math.floor(chunkIndex / totalChunks * totalPages) + 1`, clamped to
`totalPages`, defaulting to 1 when either total is zero.  All values are
nonnegative, so `Math.floor` is the natural floor. -/
def estimatePageNumber (chunkIndex totalChunks totalPages : Nat) : Nat :=
  if totalChunks = 0 ∨ totalPages = 0 then 1
  else
    min (⌊(chunkIndex : ℚ) / (totalChunks : ℚ) * (totalPages : ℚ)⌋₊ + 1) totalPages

-- ============================================
-- Claims C8, C9
-- ============================================

/-- Claim C8: for every input text and chunking configuration, every chunk
in the output of `splitIntoChunks` has length at least 50: shorter chunks
are discarded by the final filter. -/
theorem splitIntoChunks_min_length (text : List Char) (config : ChunkingConfig)
    (chunk : List Char) (h : chunk ∈ splitIntoChunks text config) :
    50 ≤ chunk.length := by
  unfold splitIntoChunks at h
  simpa using (List.mem_filter.mp h).2

set_option maxRecDepth 100000 in
/-- Witness for `splitIntoChunks_min_length`: a 60-character text survives
chunking unchanged and its single chunk has length at least 50. -/
theorem splitIntoChunks_min_length_holds :
    List.replicate 60 'a' ∈
      splitIntoChunks (List.replicate 60 'a') MEDICAL_CHUNK_CONFIG ∧
    50 ≤ (List.replicate 60 'a').length :=
  ⟨by decide,
   splitIntoChunks_min_length (List.replicate 60 'a') MEDICAL_CHUNK_CONFIG
     (List.replicate 60 'a') (by decide)⟩

/-- Claim C9: the estimated page number of chunk `i` of `n` chunks over `p`
pages is `floor(i / n * p) + 1` clamped above by `p` — equivalently, in
natural-number arithmetic, `min (i * p / n + 1) p` — and is 1 whenever `n`
or `p` is zero. -/
theorem estimatePageNumber_eq (chunkIndex totalChunks totalPages : Nat) :
    estimatePageNumber chunkIndex totalChunks totalPages =
      if totalChunks = 0 ∨ totalPages = 0 then 1
      else min (chunkIndex * totalPages / totalChunks + 1) totalPages := by
  unfold estimatePageNumber
  split
  · rfl
  · have hcast : (chunkIndex : ℚ) / (totalChunks : ℚ) * (totalPages : ℚ) =
        ((chunkIndex * totalPages : Nat) : ℚ) / ((totalChunks : Nat) : ℚ) := by
      push_cast
      ring
    rw [hcast, Nat.floor_div_eq_div]

-- ============================================
-- Chat orchestrator (src/lib/chat-orchestrator.ts)
-- ============================================

/-- Number.prototype.toFixed(1) for the nonnegative percentage values used in
context formatting, as round-half-up to one decimal place. -/
def toFixed1 (q : ℚ) : String :=
  let n : ℤ := ⌊q * 10 + 1/2⌋
  toString (n / 10) ++ "." ++ toString ((n % 10).natAbs)

/-- `formatChunksAsContext` with the default separator: the placeholder
string for no results, otherwise numbered, similarity-annotated fragments. -/
def formatChunksAsContext (chunks : List RetrievedChunk) : String :=
  if chunks.length = 0 then "No se encontró información relevante en el documento."
  else
    String.intercalate "\n\n---\n\n"
      (chunks.mapIdx (fun index chunk =>
        "[Fragmento " ++ toString (index + 1) ++ " - Similitud: " ++
          toFixed1 (chunk.similarity * 100) ++ "%]\n" ++ chunk.content))

/-- `ChatConfig` of the orchestrator. -/
structure ChatConfig where
  stream : Option Bool := none
  modelTemperature : Option ℚ := none
  userId : Option String := none
  title : Option String := none

/-- `ProcessChatResult` of the blocking orchestrator. -/
structure ProcessChatResult where
  response : String
  sessionId : String
  sources : List RetrievedChunk
deriving DecidableEq

/-- The observable actions of one orchestrator invocation, in program
order: awaited calls into memory, retrieval and generation, plus callback
notifications. -/
inductive Event where
  | createSessionCall
  | sessionCreatedNote (sessionId : String)
  | hybridSearchCall (query documentId : String)
  | sourcesNote
  | getChatHistoryCall (sessionId : String)
  | saveMessageCall (role : Role) (content : String)
  | generateResponseCall
  | generateResponseStreamCall
  | completionNote (fullResponse : String)
deriving DecidableEq

/-- Environment of one blocking `processChat` invocation: the outcome of
every external interaction it may perform. -/
structure ChatEnv where
  createOutcome : DbOutcome String
  store : VectorStore
  historyOutcome : DbOutcome (List ChatMessageRec)
  genOutcome : Except JsError String
  saveUserOutcome : DbOutcome String
  saveAssistantOutcome : DbOutcome String

/-- Environment of one `processChatStream` invocation: `genChunks` are the
fragments the generation stream yields, and `genError` is a rejection of the
stream after those fragments (none for normal completion). -/
structure StreamEnv where
  createOutcome : DbOutcome String
  store : VectorStore
  historyOutcome : DbOutcome (List ChatMessageRec)
  saveUserOutcome : DbOutcome String
  genChunks : List String
  genError : Option JsError
  saveAssistantOutcome : DbOutcome String

/-- Step 1 of both orchestrator functions: when the supplied session id is
falsy, create a session and throw on failure; in streaming mode (`notify`)
the `onSessionCreated` callback fires with the fresh id.  Returns the
recorded events and either the current session id or the thrown error. -/
def resolveSession (documentId : String) (sessionId : Option String)
    (config : ChatConfig) (createOutcome : DbOutcome String) (notify : Bool) :
    List Event × Except JsError String :=
  if jsTruthyStr sessionId then ([], .ok (sessionId.getD ""))
  else
    match createChatSession (some documentId) config.userId config.title createOutcome with
    | .error e => ([.createSessionCall], .error e)
    | .ok r =>
      if r.success && jsTruthyStr r.sessionId then
        (if notify then
           [.createSessionCall, .sessionCreatedNote (r.sessionId.getD "")]
         else [.createSessionCall],
         .ok (r.sessionId.getD ""))
      else ([.createSessionCall], .error ⟨true, "No se pudo crear la sesión de chat"⟩)

/-- `processChat` (blocking): session, hybrid search with topK 5 and
threshold 0.6, history of the last 10 messages, generation, and only then
the user and assistant message writes.  Returns the event trace and the
result or thrown error. -/
def processChat (message documentId : String) (sessionId : Option String)
    (config : ChatConfig) (env : ChatEnv) :
    List Event × Except JsError ProcessChatResult :=
  match resolveSession documentId sessionId config env.createOutcome false with
  | (evs, .error e) => (evs, .error e)
  | (evs, .ok sid) =>
    match hybridSearch env.store message documentId
        { topK := some 5, threshold := some (3/5) } with
    | .error msg =>
      (evs ++ [.hybridSearchCall message documentId], .error ⟨true, msg⟩)
    | .ok relevantChunks =>
      let _context := formatChunksAsContext relevantChunks
      match getChatHistory sid 10 env.historyOutcome with
      | .error e =>
        (evs ++ [.hybridSearchCall message documentId, .getChatHistoryCall sid], .error e)
      | .ok history =>
        let _formattedHistory := formatChatHistory history
        match env.genOutcome with
        | .error e =>
          (evs ++ [.hybridSearchCall message documentId, .getChatHistoryCall sid,
             .generateResponseCall],
           .error e)
        | .ok response =>
          let _saveUser := saveChatMessage sid .user message none env.saveUserOutcome
          let _saveAssistant :=
            saveChatMessage sid .assistant response none env.saveAssistantOutcome
          (evs ++ [.hybridSearchCall message documentId, .getChatHistoryCall sid,
             .generateResponseCall, .saveMessageCall .user message,
             .saveMessageCall .assistant response],
           .ok { response := response, sessionId := sid, sources := relevantChunks })

/-- `processChatStream`: session (with the created-session callback), hybrid
search, the sources callback, history, then the user message write BEFORE
the generation stream; the yielded fragments are forwarded and accumulated,
and on normal completion the assistant message is written and the completion
callback fires.  Returns the event trace, the yielded fragments and the
completion status. -/
def processChatStream (message documentId : String) (sessionId : Option String)
    (config : ChatConfig) (env : StreamEnv) :
    List Event × List String × Except JsError Unit :=
  match resolveSession documentId sessionId config env.createOutcome true with
  | (evs, .error e) => (evs, [], .error e)
  | (evs, .ok sid) =>
    match hybridSearch env.store message documentId
        { topK := some 5, threshold := some (3/5) } with
    | .error msg =>
      (evs ++ [.hybridSearchCall message documentId], [], .error ⟨true, msg⟩)
    | .ok relevantChunks =>
      let _context := formatChunksAsContext relevantChunks
      match getChatHistory sid 10 env.historyOutcome with
      | .error e =>
        (evs ++ [.hybridSearchCall message documentId, .sourcesNote,
           .getChatHistoryCall sid],
         [], .error e)
      | .ok history =>
        let _formattedHistory := formatChatHistory history
        let _saveUser := saveChatMessage sid .user message none env.saveUserOutcome
        let fullResponse := String.join env.genChunks
        match env.genError with
        | some e =>
          (evs ++ [.hybridSearchCall message documentId, .sourcesNote,
             .getChatHistoryCall sid, .saveMessageCall .user message,
             .generateResponseStreamCall],
           env.genChunks, .error e)
        | none =>
          let _saveAssistant :=
            saveChatMessage sid .assistant fullResponse none env.saveAssistantOutcome
          (evs ++ [.hybridSearchCall message documentId, .sourcesNote,
             .getChatHistoryCall sid, .saveMessageCall .user message,
             .generateResponseStreamCall, .saveMessageCall .assistant fullResponse,
             .completionNote fullResponse],
           env.genChunks, .ok ())

/-- Whether an event is the invocation of a generation capability. -/
def isGenerationEvent : Event → Bool
  | .generateResponseCall => true
  | .generateResponseStreamCall => true
  | _ => false

/-- Whether an event is a `saveChatMessage` call with role user. -/
def isUserSaveEvent : Event → Bool
  | .saveMessageCall .user _ => true
  | _ => false

/-- Whether a trace invokes a generation capability. -/
def reachesGeneration (trace : List Event) : Bool := trace.any isGenerationEvent

/-- Whether some user-message save occurs strictly before the first
generation call of the trace. -/
def userSavedBeforeGeneration : List Event → Bool
  | [] => false
  | e :: rest =>
    if isGenerationEvent e then false
    else if isUserSaveEvent e then true
    else userSavedBeforeGeneration rest

-- ============================================
-- Streaming wire format (src/app/api/chat/message/route.ts, POST)
-- ============================================

/-- `JSON.stringify({ sessionId: id }) + "\n\n"`: the session header frame
(ids are plain uuids, so stringify performs no escaping). -/
def sessionFrame (id : String) : String :=
  "\x7b\"sessionId\":\"" ++ id ++ "\"\x7d" ++ "\n\n"

/-- The created-session ids notified during a run, in callback order. -/
def sessionCreatedIds : List Event → List String
  | [] => []
  | .sessionCreatedNote id :: rest => id :: sessionCreatedIds rest
  | _ :: rest => sessionCreatedIds rest

/-- The for-await loop of the route: on the first chunk, when the request
carried a truthy `sessionId` and no header was sent by the callback, the
header frame for the supplied id is enqueued before the chunk. -/
def routeStreamLoopFrames (sessionId : Option String) : Bool → List String → List String
  | _, [] => []
  | isFirst, c :: cs =>
    if isFirst && jsTruthyStr sessionId then
      sessionFrame (sessionId.getD "") :: c :: routeStreamLoopFrames sessionId false cs
    else c :: routeStreamLoopFrames sessionId isFirst cs

/-- The frames enqueued on the response stream of POST /api/chat/message in
streaming mode: the header frames sent by the `onSessionCreated` callback
(at most one), followed by the loop over the generator output.  An error
thrown by the generator ends the stream; frames already enqueued stand. -/
def chatMessageRouteStreamFrames (message documentId : String)
    (sessionId : Option String) (config : ChatConfig) (env : StreamEnv) :
    List String :=
  let run := processChatStream message documentId sessionId config env
  let headerFrames := (sessionCreatedIds run.1).map sessionFrame
  headerFrames ++ routeStreamLoopFrames sessionId headerFrames.isEmpty run.2.1

-- ============================================
-- Helper lemmas for the orchestrator traces
-- ============================================

/-- Case analysis of `resolveSession`: the supplied id is used as-is when
truthy; otherwise session creation either throws or yields a truthy fresh
id, notifying the callback in streaming mode. -/
lemma resolveSession_cases (documentId : String) (sessionId : Option String)
    (config : ChatConfig) (createOutcome : DbOutcome String) (notify : Bool) :
    (jsTruthyStr sessionId = true ∧
      resolveSession documentId sessionId config createOutcome notify =
        ([], .ok (sessionId.getD ""))) ∨
    (jsTruthyStr sessionId = false ∧ ∃ e,
      resolveSession documentId sessionId config createOutcome notify =
        ([.createSessionCall], .error e)) ∨
    (jsTruthyStr sessionId = false ∧ ∃ id,
      resolveSession documentId sessionId config createOutcome notify =
        ((if notify then [.createSessionCall, .sessionCreatedNote id]
          else [.createSessionCall]), .ok id)) := by
  cases ht : jsTruthyStr sessionId with
  | true => exact Or.inl ⟨rfl, by rw [resolveSession, if_pos ht]⟩
  | false =>
    cases createOutcome with
    | ok id =>
      by_cases hid : id = ""
      · have hidT : jsTruthyStr (some id) = false := by simp [jsTruthyStr, hid]
        exact Or.inr (Or.inl ⟨rfl, ⟨true, "No se pudo crear la sesión de chat"⟩,
          by rw [resolveSession, if_neg (by simp [ht])];
             simp [createChatSession, tryCatch, hidT]⟩)
      · have hidT : jsTruthyStr (some id) = true := by simp [jsTruthyStr, hid]
        exact Or.inr (Or.inr ⟨rfl, id,
          by rw [resolveSession, if_neg (by simp [ht])];
             simp [createChatSession, tryCatch, hidT]⟩)
    | dbError m =>
      exact Or.inr (Or.inl ⟨rfl, ⟨true, "No se pudo crear la sesión de chat"⟩,
        by rw [resolveSession, if_neg (by simp [ht])];
           simp [createChatSession, tryCatch]⟩)
    | exn e =>
      exact Or.inr (Or.inl ⟨rfl, ⟨true, "No se pudo crear la sesión de chat"⟩,
        by rw [resolveSession, if_neg (by simp [ht])];
           simp [createChatSession, tryCatch]⟩)

/-- With the first-chunk flag already cleared, the route loop forwards the
generator output unchanged. -/
lemma routeStreamLoopFrames_false_flag (sessionId : Option String) :
    ∀ cs, routeStreamLoopFrames sessionId false cs = cs := by
  intro cs
  induction cs with
  | nil => rfl
  | cons c cs ih => simp [routeStreamLoopFrames, ih]

/-- The facts about one streaming run needed for the wire-format and
ordering claims: a run that reaches generation saved the user message
first; a truthy request id never notifies a created session; and an
untruthy request id with no created-session notification yields nothing. -/
lemma processChatStream_trace_facts (message documentId : String)
    (sessionId : Option String) (config : ChatConfig) (env : StreamEnv) :
    (reachesGeneration (processChatStream message documentId sessionId config env).1 = true →
      userSavedBeforeGeneration
        (processChatStream message documentId sessionId config env).1 = true) ∧
    (jsTruthyStr sessionId = true →
      sessionCreatedIds (processChatStream message documentId sessionId config env).1 = []) ∧
    (jsTruthyStr sessionId = false →
      sessionCreatedIds (processChatStream message documentId sessionId config env).1 = [] →
      (processChatStream message documentId sessionId config env).2.1 = []) := by
  rcases resolveSession_cases documentId sessionId config env.createOutcome true with
    ⟨ht, heq⟩ | ⟨hf, e, heq⟩ | ⟨hf, id, heq⟩
  · unfold processChatStream
    rw [heq]
    cases hs : hybridSearch env.store message documentId
        { topK := some 5, threshold := some (3/5) } with
    | error msg =>
      simp [hs, reachesGeneration, userSavedBeforeGeneration, sessionCreatedIds,
        isGenerationEvent, ht]
    | ok relevantChunks =>
      cases hh : getChatHistory (sessionId.getD "") 10 env.historyOutcome with
      | error e =>
        simp [hs, hh, reachesGeneration, userSavedBeforeGeneration, sessionCreatedIds,
          isGenerationEvent, ht]
      | ok history =>
        cases hg : env.genError with
        | some e =>
          simp [hs, hh, hg, reachesGeneration, userSavedBeforeGeneration, sessionCreatedIds,
            isGenerationEvent, isUserSaveEvent, ht]
        | none =>
          simp [hs, hh, hg, reachesGeneration, userSavedBeforeGeneration, sessionCreatedIds,
            isGenerationEvent, isUserSaveEvent, ht]
  · unfold processChatStream
    rw [heq]
    simp [reachesGeneration, userSavedBeforeGeneration, sessionCreatedIds,
      isGenerationEvent, hf]
  · unfold processChatStream
    rw [heq]
    cases hs : hybridSearch env.store message documentId
        { topK := some 5, threshold := some (3/5) } with
    | error msg =>
      simp [hs, reachesGeneration, userSavedBeforeGeneration, sessionCreatedIds,
        isGenerationEvent, hf]
    | ok relevantChunks =>
      cases hh : getChatHistory id 10 env.historyOutcome with
      | error e =>
        simp [hs, hh, reachesGeneration, userSavedBeforeGeneration, sessionCreatedIds,
          isGenerationEvent, hf]
      | ok history =>
        cases hg : env.genError with
        | some e =>
          simp [hs, hh, hg, reachesGeneration, userSavedBeforeGeneration, sessionCreatedIds,
            isGenerationEvent, isUserSaveEvent, hf]
        | none =>
          simp [hs, hh, hg, reachesGeneration, userSavedBeforeGeneration, sessionCreatedIds,
            isGenerationEvent, isUserSaveEvent, hf]

/-- In every blocking `processChat` run, no user-message save precedes the
generation call: the source saves the user message only after
`generateResponse` returns. -/
lemma processChat_no_user_save_before_generation (message documentId : String)
    (sessionId : Option String) (config : ChatConfig) (env : ChatEnv) :
    userSavedBeforeGeneration
      (processChat message documentId sessionId config env).1 = false := by
  rcases resolveSession_cases documentId sessionId config env.createOutcome false with
    ⟨ht, heq⟩ | ⟨hf, e, heq⟩ | ⟨hf, id, heq⟩
  · unfold processChat
    rw [heq]
    cases hs : hybridSearch env.store message documentId
        { topK := some 5, threshold := some (3/5) } with
    | error msg =>
      simp [hs, userSavedBeforeGeneration, isGenerationEvent, isUserSaveEvent]
    | ok relevantChunks =>
      cases hh : getChatHistory (sessionId.getD "") 10 env.historyOutcome with
      | error e =>
        simp [hs, hh, userSavedBeforeGeneration, isGenerationEvent, isUserSaveEvent]
      | ok history =>
        cases hg : env.genOutcome with
        | error e =>
          simp [hs, hh, hg, userSavedBeforeGeneration, isGenerationEvent, isUserSaveEvent]
        | ok response =>
          simp [hs, hh, hg, userSavedBeforeGeneration, isGenerationEvent, isUserSaveEvent]
  · unfold processChat
    rw [heq]
    simp [userSavedBeforeGeneration, isGenerationEvent, isUserSaveEvent]
  · unfold processChat
    rw [heq]
    cases hs : hybridSearch env.store message documentId
        { topK := some 5, threshold := some (3/5) } with
    | error msg =>
      simp [hs, userSavedBeforeGeneration, isGenerationEvent, isUserSaveEvent]
    | ok relevantChunks =>
      cases hh : getChatHistory id 10 env.historyOutcome with
      | error e =>
        simp [hs, hh, userSavedBeforeGeneration, isGenerationEvent, isUserSaveEvent]
      | ok history =>
        cases hg : env.genOutcome with
        | error e =>
          simp [hs, hh, hg, userSavedBeforeGeneration, isGenerationEvent, isUserSaveEvent]
        | ok response =>
          simp [hs, hh, hg, userSavedBeforeGeneration, isGenerationEvent, isUserSaveEvent]

-- ============================================
-- Claims C1, C5
-- ============================================

/-- Claim C1, counterexample: a blocking `processChat` invocation that
reaches the generation step (here with an existing session, a store that
returns no chunks and a successful generation) calls `generateResponse`
strictly before the user-message `saveChatMessage`: no user save precedes
the generation call in its trace. -/
theorem processChat_generation_precedes_user_save :
    reachesGeneration
        (processChat "hola" "doc1" (some "s1") {}
          { createOutcome := .ok "ignored", store := fun _ _ _ => .ok [],
            historyOutcome := .ok [], genOutcome := .ok "respuesta",
            saveUserOutcome := .ok "m1", saveAssistantOutcome := .ok "m2" }).1 = true ∧
    userSavedBeforeGeneration
        (processChat "hola" "doc1" (some "s1") {}
          { createOutcome := .ok "ignored", store := fun _ _ _ => .ok [],
            historyOutcome := .ok [], genOutcome := .ok "respuesta",
            saveUserOutcome := .ok "m1", saveAssistantOutcome := .ok "m2" }).1 = false :=
  ⟨by decide, by decide⟩

/-- Claim C1, amended: the persistence-ordering invariant holds in streaming
mode only — every `processChatStream` invocation that reaches the generation
step has saved the user message before calling `generateResponseStream` —
while blocking `processChat` never saves the user message before
`generateResponse`: it persists both messages only after generation
returns. -/
theorem chat_user_message_persistence_order (message documentId : String)
    (sessionId : Option String) (config : ChatConfig)
    (envS : StreamEnv) (envB : ChatEnv) :
    (reachesGeneration (processChatStream message documentId sessionId config envS).1 = true →
      userSavedBeforeGeneration
        (processChatStream message documentId sessionId config envS).1 = true) ∧
    userSavedBeforeGeneration
      (processChat message documentId sessionId config envB).1 = false :=
  ⟨(processChatStream_trace_facts message documentId sessionId config envS).1,
   processChat_no_user_save_before_generation message documentId sessionId config envB⟩

/-- Witness for `chat_user_message_persistence_order` at concrete
environments that reach generation in both modes. -/
theorem chat_user_message_persistence_order_holds :
    userSavedBeforeGeneration
        (processChatStream "hola" "doc1" none {}
          { createOutcome := .ok "s-nueva", store := fun _ _ _ => .ok [],
            historyOutcome := .ok [], saveUserOutcome := .ok "m1",
            genChunks := ["Hola"], genError := none,
            saveAssistantOutcome := .ok "m2" }).1 = true ∧
    userSavedBeforeGeneration
        (processChat "hola" "doc1" none {}
          { createOutcome := .ok "s-nueva", store := fun _ _ _ => .ok [],
            historyOutcome := .ok [], genOutcome := .ok "respuesta",
            saveUserOutcome := .ok "m1", saveAssistantOutcome := .ok "m2" }).1 = false :=
  ⟨(chat_user_message_persistence_order "hola" "doc1" none {}
      { createOutcome := .ok "s-nueva", store := fun _ _ _ => .ok [],
        historyOutcome := .ok [], saveUserOutcome := .ok "m1",
        genChunks := ["Hola"], genError := none, saveAssistantOutcome := .ok "m2" }
      { createOutcome := .ok "s-nueva", store := fun _ _ _ => .ok [],
        historyOutcome := .ok [], genOutcome := .ok "respuesta",
        saveUserOutcome := .ok "m1", saveAssistantOutcome := .ok "m2" }).1 (by decide),
   (chat_user_message_persistence_order "hola" "doc1" none {}
      { createOutcome := .ok "s-nueva", store := fun _ _ _ => .ok [],
        historyOutcome := .ok [], saveUserOutcome := .ok "m1",
        genChunks := ["Hola"], genError := none, saveAssistantOutcome := .ok "m2" }
      { createOutcome := .ok "s-nueva", store := fun _ _ _ => .ok [],
        historyOutcome := .ok [], genOutcome := .ok "respuesta",
        saveUserOutcome := .ok "m1", saveAssistantOutcome := .ok "m2" }).2⟩

/-- Claim C5, counterexample: a streaming call that supplied an existing
`sessionId` and whose generation stream yields no text emits no frames at
all — in particular the session header frame is never emitted, against the
claim that every streaming call emits it once as the first frame. -/
theorem streamRoute_header_omitted_on_empty_stream :
    chatMessageRouteStreamFrames "hola" "doc1" (some "s1") {}
        { createOutcome := .ok "ignored", store := fun _ _ _ => .ok [],
          historyOutcome := .ok [], saveUserOutcome := .ok "m1",
          genChunks := [], genError := none, saveAssistantOutcome := .ok "m2" } = [] ∧
    (chatMessageRouteStreamFrames "hola" "doc1" (some "s1") {}
        { createOutcome := .ok "ignored", store := fun _ _ _ => .ok [],
          historyOutcome := .ok [], saveUserOutcome := .ok "m1",
          genChunks := [], genError := none,
          saveAssistantOutcome := .ok "m2" }).count (sessionFrame "s1") = 0 :=
  ⟨by decide, by decide⟩

/-- Claim C5, amended: whenever any frame is emitted on the streaming
response, the first frame is the session header (the JSON object followed by
a blank-line separator) and it precedes all generated-text frames, with the
created id when a session was created and the echoed supplied id otherwise;
but the echo of a supplied id is emitted lazily with the first generated
chunk, so a call with a supplied id whose generation stream yields no text
emits no header (and no frames at all), and a falsy supplied id behaves
like a missing one. -/
theorem streamRoute_header_before_text (message documentId : String)
    (sessionId : Option String) (config : ChatConfig) (env : StreamEnv) :
    (∀ id,
      sessionCreatedIds (processChatStream message documentId sessionId config env).1 = [id] →
      chatMessageRouteStreamFrames message documentId sessionId config env =
        sessionFrame id :: (processChatStream message documentId sessionId config env).2.1) ∧
    (jsTruthyStr sessionId = false →
      sessionCreatedIds (processChatStream message documentId sessionId config env).1 = [] →
      chatMessageRouteStreamFrames message documentId sessionId config env = []) ∧
    (∀ sid, sessionId = some sid → sid ≠ "" →
      ((processChatStream message documentId sessionId config env).2.1 = [] →
        chatMessageRouteStreamFrames message documentId sessionId config env = []) ∧
      (∀ c cs,
        (processChatStream message documentId sessionId config env).2.1 = c :: cs →
        chatMessageRouteStreamFrames message documentId sessionId config env =
          sessionFrame sid :: c :: cs)) := by
  refine ⟨?_, ?_, ?_⟩
  · intro id hnotes
    simp only [chatMessageRouteStreamFrames]
    rw [hnotes]
    simp [routeStreamLoopFrames_false_flag]
  · intro hf hnotes
    have hyields :=
      (processChatStream_trace_facts message documentId sessionId config env).2.2 hf hnotes
    simp only [chatMessageRouteStreamFrames]
    rw [hnotes, hyields]
    simp [routeStreamLoopFrames]
  · intro sid hsid hne
    have htr : jsTruthyStr sessionId = true := by simp [jsTruthyStr, hsid, hne]
    have hnotes :=
      (processChatStream_trace_facts message documentId sessionId config env).2.1 htr
    constructor
    · intro hy
      simp only [chatMessageRouteStreamFrames]
      rw [hnotes, hy]
      simp [routeStreamLoopFrames]
    · intro c cs hy
      simp only [chatMessageRouteStreamFrames]
      rw [hnotes, hy]
      simp [routeStreamLoopFrames, hsid, jsTruthyStr, hne,
        routeStreamLoopFrames_false_flag]

/-- Witness for `streamRoute_header_before_text`: with an existing session
and one generated chunk, the frames are exactly the echoed header followed
by the chunk. -/
theorem streamRoute_header_before_text_holds :
    chatMessageRouteStreamFrames "hola" "doc1" (some "s1") {}
        { createOutcome := .ok "ignored", store := fun _ _ _ => .ok [],
          historyOutcome := .ok [], saveUserOutcome := .ok "m1",
          genChunks := ["Hola"], genError := none,
          saveAssistantOutcome := .ok "m2" } =
      sessionFrame "s1" :: "Hola" :: [] :=
  ((streamRoute_header_before_text "hola" "doc1" (some "s1") {}
      { createOutcome := .ok "ignored", store := fun _ _ _ => .ok [],
        historyOutcome := .ok [], saveUserOutcome := .ok "m1",
        genChunks := ["Hola"], genError := none,
        saveAssistantOutcome := .ok "m2" }).2.2 "s1" rfl
    (by decide)).2 "Hola" [] (by decide)

end MedicalChatRag
